import Mathlib

/-!
Shallow embedding of the request-orchestration layer of the Guardian
Protocol API (src/index.js): the three Express endpoint handlers
`/analyze`, `/graph` and `/jeeter`.

Modelling conventions:
* A raw query parameter is an `Option String` (absent = `none`).
* The result of JavaScript `Number(·)` applied to a raw numeric query value
  is a `JsNum`: either a finite rational or a non-finite value (`NaN`,
  `±Infinity`); `Number(undefined) = NaN`, so an absent parameter parses to
  `JsNum.notFinite`.
* External collaborators (`readErc20Meta`, `approxTopHoldersPct`,
  `getContractSource`, `getDexScreenerPairs`, `buildEvmGraph`,
  `buildSolGraph`, `jeeterReport`, `analyzeSolMint`,
  `looksLikeSolAddress`) are async calls whose outcome for the request at
  hand is supplied as data: an `Except String α` value (`.error e` models a
  thrown exception whose `message` is `e`, with `""` standing for a missing
  message).  The handlers are therefore pure functions of the request and
  of the collaborator outcomes.
* A JSON response body is a record of `Option` fields; `none` means the
  field is absent from the JSON object, `some v` that it is present with
  value `v`.  Nullable JSON values are modelled by an inner `Option`.
* Handlers that must witness whether a particular collaborator was invoked
  return `Response × Bool`, the `Bool` flagging the invocation.
-/

/-- Result of JavaScript `Number(·)` on a raw query value: a finite
rational, or a non-finite result (`NaN` / `±Infinity`), which is exactly
what `Number.isFinite` rejects. -/
inductive JsNum where
  | notFinite
  | fin (q : ℚ)
deriving DecidableEq

/-- `const num = (v, d) => { const n = Number(v); return Number.isFinite(n) ? n : d; }`
(src/index.js line 38), applied to the already-parsed `Number(v)`. -/
def num (v : JsNum) (d : ℚ) : ℚ :=
  match v with
  | .notFinite => d
  | .fin q => q

/-- `const blocks = num(req.query.window, 200)` (lines 47 / 121 / 159). -/
def windowOf (v : JsNum) : ℚ := num v 200

/-- `const span = Math.max(1, Math.min(num(req.query.span, 5), 10))`
(lines 48 / 122 / 160). -/
def spanOf (v : JsNum) : ℚ := max 1 (min (num v 5) 10)

/-- `const delay = Math.max(0, num(req.query.delay, 500))`
(lines 49 / 123 / 161). -/
def delayOf (v : JsNum) : ℚ := max 0 (num v 500)

/-- JavaScript `toLowerCase()` modelled character-wise over the string
contents (kernel-reducible, unlike `String.toLower`). -/
def jsToLower (s : String) : String := ⟨s.data.map Char.toLower⟩

/-- JavaScript `trim()`: strip leading and trailing whitespace, modelled
over the character list (kernel-reducible, unlike `String.trim`). -/
def jsTrim (s : String) : String :=
  ⟨((s.data.dropWhile Char.isWhitespace).reverse.dropWhile
      Char.isWhitespace).reverse⟩

/-- JavaScript `x || d` for a possibly-absent string: `undefined` and the
empty string are falsy and yield the default. -/
def orStr (o : Option String) (d : String) : String :=
  match o with
  | none => d
  | some s => if s = "" then d else s

/-- JavaScript `e.message || d` at the catch-all boundaries: an absent or
empty exception message falls back to the endpoint default. -/
def orMsg (e d : String) : String := if e = "" then d else e

/-- JavaScript falsiness of a possibly-absent string (`!meta.name`):
`undefined`/`null` and `""` are falsy. -/
def strFalsy (o : Option String) : Bool :=
  match o with
  | none => true
  | some s => s == ""

/-- A raw HTTP request to one of the three endpoints: untouched query
parameters.  Numeric parameters carry the result of `Number(·)` on the raw
value (absent parses to `NaN`, i.e. `JsNum.notFinite`). -/
structure Query where
  chain : Option String := none
  token : Option String := none
  center : Option String := none
  fast : Option String := none
  window : JsNum := JsNum.notFinite
  span : JsNum := JsNum.notFinite
  delay : JsNum := JsNum.notFinite
deriving DecidableEq

/-- `String(req.query.chain || "base").toLowerCase()` (lines 44 / 118 / 157). -/
def chainKeyOf (q : Query) : String := jsToLower (orStr q.chain "base")

/-- `String(req.query.token || "").trim()` (lines 45 / 119 / 158). -/
def tokenOf (q : Query) : String := jsTrim (orStr q.token "")

/-- `String(req.query.center || "").trim().toLowerCase()` (line 120). -/
def centerOf (q : Query) : String := jsToLower (jsTrim (orStr q.center ""))

/-- `const fast = String(req.query.fast || "") === "1"` (line 46). -/
def fastOf (q : Query) : Bool := orStr q.fast "" == "1"

/-- One entry of the chain registry returned by `getChains()`:
`{kind, rpc, explorer, scanKey}`. -/
structure ChainConfig where
  kind : String
  rpc : String
  explorer : String
  scanKey : String
deriving DecidableEq

/-- Result of the mandatory `readErc20Meta({rpc, token})` call (the
`provider`/`iface` handles are opaque and only forwarded, so they are not
modelled). -/
structure EvmMeta where
  name : Option String
  symbol : Option String
  decimals : ℚ
  totalSupply : ℚ
  owner : Option String
  ownerRenounced : Bool
deriving DecidableEq

/-- One DexScreener pair as used by the fallback enrichment:
`p0?.baseToken?.name` / `p0?.baseToken?.symbol` (an absent `baseToken`
collapses to both fields absent). -/
structure DexPair where
  name : Option String := none
  symbol : Option String := none
deriving DecidableEq

/-- Result of `getContractSource(chainKey, token, scanKey)`. -/
structure ContractSrc where
  verified : Option Bool
  owner : Option String
deriving DecidableEq

/-- Shape of a transfer-graph builder result (`GraphResult`):
`{fromBlock?, toBlock?, nodes, links}`.  Node/edge contents are opaque. -/
structure GraphOut where
  fromBlock : Option ℤ
  toBlock : Option ℤ
  nodes : List String
  links : List String
deriving DecidableEq

/-- Result of `jeeterReport(...)`: `{priceNow?, fromBlock?, toBlock?, jeeters}`. -/
structure JeeterOut where
  priceNow : Option ℚ
  fromBlock : Option ℤ
  toBlock : Option ℤ
  jeeters : List String
deriving DecidableEq

/-- The `facts` object of a successful EVM `/analyze` response (line 90).
The constant `lp: {locked: null, locker: null, unlockDate: null}` object is
not recorded as data since it carries no information. -/
structure Facts where
  chain : String
  token : String
  name : Option String
  symbol : Option String
  decimals : ℚ
  totalSupply : ℚ
  owner : Option String
  ownerRenounced : Bool
  top10Pct : Option ℚ
deriving DecidableEq

/-- A JSON response body: every field any of the three endpoints can emit,
`none` = absent from the JSON object, inner `Option` = JSON `null`. -/
structure Body where
  ok : Option Bool := none
  error : Option String := none
  facts : Option Facts := none
  contractVerified : Option (Option Bool) := none
  explorerOwner : Option (Option String) := none
  explorer : Option String := none
  mode : Option String := none
  windowBlocks : Option ℚ := none
  span : Option ℚ := none
  delay : Option ℚ := none
  fromBlock : Option (Option ℤ) := none
  toBlock : Option (Option ℤ) := none
  nodes : Option (List String) := none
  links : Option (List String) := none
  priceNow : Option (Option ℚ) := none
  jeeters : Option (List String) := none
deriving DecidableEq

/-- `res.status(s).json({ ok: false, error: msg })`. -/
def errBody (msg : String) : Body := { ok := some false, error := some msg }

/-- An HTTP response: status code plus JSON body. -/
structure Response where
  status : Nat
  body : Body
deriving DecidableEq

/-- Collaborator outcomes for one `/analyze` request. -/
structure AnalyzeBehavior where
  readMeta : Except String EvmMeta
  dexPairs : Except String (List DexPair)
  topPct : Except String ℚ
  contractSrc : Except String ContractSrc
  solAnalyze : Except String Body

/-- Collaborator outcomes for one `/graph` request. -/
structure GraphBehavior where
  readMeta : Except String EvmMeta
  evmGraph : Except String GraphOut
  solGraph : Except String GraphOut

/-- Collaborator outcomes for one `/jeeter` request. -/
structure JeeterBehavior where
  readMeta : Except String EvmMeta
  jeeter : Except String JeeterOut

/-- The DexScreener name/symbol fallback of `/analyze` (lines 61-68): runs
only when `name` or `symbol` is falsy, swallows any failure, and copies
each field only when the candidate is truthy and the field still falsy. -/
def enrich (meta : EvmMeta) (dex : Except String (List DexPair)) : EvmMeta :=
  if strFalsy meta.name || strFalsy meta.symbol then
    match dex with
    | .error _ => meta
    | .ok pairs =>
      match pairs.head? with
      | none => meta
      | some p0 =>
        let m1 := if !strFalsy p0.name && strFalsy meta.name then
            { meta with name := p0.name } else meta
        if !strFalsy p0.symbol && strFalsy m1.symbol then
          { m1 with symbol := p0.symbol } else m1
  else meta

/-- `app.get("/analyze", ...)` (src/index.js lines 43-114).  Returns the
response plus a flag recording whether `approxTopHoldersPct` was invoked. -/
def analyzeH (chains : String → Option ChainConfig) (B : AnalyzeBehavior)
    (q : Query) : Response × Bool :=
  let chainKey := chainKeyOf q
  let token := tokenOf q
  let fast := fastOf q
  let blocks := windowOf q.window
  let span := spanOf q.span
  let delay := delayOf q.delay
  match chains chainKey with
  | none => (⟨400, errBody "Unknown chain"⟩, false)
  | some chain =>
    if token = "" then (⟨400, errBody "Missing token/mint"⟩, false)
    else if chain.kind = "evm" then
      match B.readMeta with
      | .error e => (⟨500, errBody (orMsg e "Analyze failed")⟩, false)
      | .ok meta0 =>
        let meta := enrich meta0 B.dexPairs
        let top10Pct : Option ℚ :=
          if fast then none
          else
            match B.topPct with
            | .ok v => some v
            | .error _ => none
        let src : Option Bool × Option String :=
          match B.contractSrc with
          | .ok s => (s.verified, s.owner)
          | .error _ => (none, none)
        (⟨200,
          { ok := some true,
            facts := some ⟨chainKey, token, meta.name, meta.symbol,
              meta.decimals, meta.totalSupply, meta.owner,
              meta.ownerRenounced, top10Pct⟩,
            contractVerified := some src.1,
            explorerOwner := some src.2,
            explorer := some (chain.explorer ++ "/token/" ++ token),
            mode := some (if fast then "fast" else "standard"),
            windowBlocks := some blocks, span := some span,
            delay := some delay }⟩, !fast)
    else if chain.kind = "solana" then
      match B.solAnalyze with
      | .ok out => (⟨200, out⟩, false)
      | .error e => (⟨500, errBody (orMsg e "Analyze failed")⟩, false)
    else (⟨400, errBody "Unsupported chain kind"⟩, false)

/-- `app.get("/graph", ...)` (src/index.js lines 117-153).  Returns the
response plus a flag recording whether `buildSolGraph` was invoked.  The
Solana-address shape predicate `looksLikeSolAddress` (services/sol-core.js)
is supplied as a parameter. -/
def graphH (chains : String → Option ChainConfig)
    (looksLikeSolAddress : String → Bool) (B : GraphBehavior)
    (q : Query) : Response × Bool :=
  let chainKey := chainKeyOf q
  let token := tokenOf q
  let center := centerOf q
  let blocks := windowOf q.window
  let span := spanOf q.span
  let delay := delayOf q.delay
  match chains chainKey with
  | none => (⟨400, errBody "Unknown chain"⟩, false)
  | some chain =>
    if token = "" ∨ center = "" then
      (⟨400, errBody "Missing token/center"⟩, false)
    else if chain.kind = "evm" then
      match B.readMeta with
      | .error e => (⟨500, errBody (orMsg e "Graph failed")⟩, false)
      | .ok _ =>
        let g : GraphOut :=
          match B.evmGraph with
          | .ok g0 => g0
          | .error _ => ⟨none, none, [], []⟩
        (⟨200,
          { ok := some true, fromBlock := some g.fromBlock,
            toBlock := some g.toBlock, nodes := some g.nodes,
            links := some g.links, windowBlocks := some blocks,
            span := some span, delay := some delay }⟩, false)
    else if chain.kind = "solana" then
      if ¬ looksLikeSolAddress center then
        (⟨400, errBody "Bad Sol address"⟩, false)
      else
        match B.solGraph with
        | .ok g =>
          (⟨200,
            { ok := some true, fromBlock := some g.fromBlock,
              toBlock := some g.toBlock, nodes := some g.nodes,
              links := some g.links }⟩, true)
        | .error e => (⟨500, errBody (orMsg e "Graph failed")⟩, true)
    else (⟨400, errBody "Unsupported chain kind"⟩, false)

/-- `app.get("/jeeter", ...)` (src/index.js lines 156-182). -/
def jeeterH (chains : String → Option ChainConfig) (B : JeeterBehavior)
    (q : Query) : Response :=
  let chainKey := chainKeyOf q
  let blocks := windowOf q.window
  let span := spanOf q.span
  let delay := delayOf q.delay
  match chains chainKey with
  | none => ⟨400, errBody "EVM only"⟩
  | some chain =>
    if ¬ chain.kind = "evm" then ⟨400, errBody "EVM only"⟩
    else
      match B.readMeta with
      | .error e => ⟨500, errBody (orMsg e "Jeeter failed")⟩
      | .ok _ =>
        let r : JeeterOut :=
          match B.jeeter with
          | .ok r0 => r0
          | .error _ => ⟨none, none, none, []⟩
        ⟨200,
          { ok := some true, priceNow := some r.priceNow,
            fromBlock := some r.fromBlock, toBlock := some r.toBlock,
            jeeters := some r.jeeters, windowBlocks := some blocks,
            span := some span, delay := some delay }⟩

/-! ### Concrete fixtures used by counterexamples and witnesses -/

/-- A two-entry chain registry: an EVM chain under key `"base"` and a
Solana chain under key `"sol"`. -/
def testChains : String → Option ChainConfig :=
  fun k =>
    if k = "base" then some ⟨"evm", "rpcB", "https://basescan.org", "K"⟩
    else if k = "sol" then some ⟨"solana", "rpcS", "https://solscan.io", ""⟩
    else none

/-- An address-shape predicate accepting everything. -/
def lkTrue : String → Bool := fun _ => true

/-- An address-shape predicate demanding at least 32 characters
(the rough length of a base58 Solana address). -/
def lkLen32 : String → Bool := fun s => decide (32 ≤ s.length)

/-- A successful `readErc20Meta` result. -/
def metaOk : EvmMeta := ⟨some "Token", some "TKN", 18, 1000000, some "0xowner", false⟩

/-- Outcomes where the mandatory metadata read succeeds but every guarded
collaborator throws. -/
def aBehThrow : AnalyzeBehavior :=
  { readMeta := .ok metaOk, dexPairs := .error "dex down",
    topPct := .error "boom", contractSrc := .error "scan down",
    solAnalyze := .error "not used" }

/-- A Solana-analyzer payload whose `ok` field is `false` (the analyzer
resolved without throwing but reported a failure in its own envelope). -/
def solOutNotOk : Body := { ok := some false, error := some "mint not found" }

/-- Outcomes for a Solana `/analyze` request whose analyzer resolves with
`solOutNotOk`. -/
def aBehSolNotOk : AnalyzeBehavior :=
  { readMeta := .error "not used", dexPairs := .error "not used",
    topPct := .error "not used", contractSrc := .error "not used",
    solAnalyze := .ok solOutNotOk }

/-- A Solana-analyzer payload with `ok: true`. -/
def solOutOk : Body := { ok := some true, mode := some "solana" }

/-- Outcomes for a Solana `/analyze` request whose analyzer succeeds. -/
def aBehSolOk : AnalyzeBehavior :=
  { readMeta := .error "not used", dexPairs := .error "not used",
    topPct := .error "not used", contractSrc := .error "not used",
    solAnalyze := .ok solOutOk }

/-- Outcomes for a Solana `/graph` request whose graph builder succeeds. -/
def gBehSol : GraphBehavior :=
  { readMeta := .error "not used", evmGraph := .error "not used",
    solGraph := .ok ⟨some 100, some 200, ["n1"], ["l1"]⟩ }

/-- Outcomes for an EVM `/graph` request where everything succeeds. -/
def gBehEvm : GraphBehavior :=
  { readMeta := .ok metaOk, evmGraph := .ok ⟨some 1, some 2, [], []⟩,
    solGraph := .error "not used" }

/-- Outcomes for a `/jeeter` request where everything succeeds. -/
def jBehOk : JeeterBehavior :=
  { readMeta := .ok metaOk, jeeter := .ok ⟨some 1, some 10, some 20, ["0xw"]⟩ }

/-- A plain EVM `/analyze` request: `?chain=base&token=0xToken`. -/
def qStd : Query := { chain := some "base", token := some "0xToken" }

/-- The same request with `fast=1`. -/
def qFast : Query := { chain := some "base", token := some "0xToken", fast := some "1" }

/-- An EVM request with `window=-5` (JavaScript `Number("-5") = -5`). -/
def qNegWindow : Query :=
  { chain := some "base", token := some "0xToken", window := JsNum.fin (-5) }

/-- A Solana `/analyze` request: `?chain=sol&token=MintAddr`. -/
def qSol : Query := { chain := some "sol", token := some "MintAddr" }

/-- A Solana `/graph` request with token and center present. -/
def qSolGraph : Query :=
  { chain := some "sol", token := some "MintAddr", center := some "CenterAddr" }

/-- A Solana `/graph` request whose center is not shaped like an address. -/
def qSolGraphBad : Query :=
  { chain := some "sol", token := some "MintAddr", center := some "not-an-address" }

/-- A request whose chain key is absent from `testChains`. -/
def qNoChain : Query := { chain := some "nochain", token := some "0xToken" }

/-- A request with an unknown chain key and no token and no center. -/
def qNoChainNoToken : Query := { chain := some "nochain" }

/-! ### Helper lemmas -/

/-- The catch-all message fallback never produces an empty message when the
endpoint default is non-empty. -/
theorem orMsg_ne_empty (e d : String) (hd : ¬ d = "") : ¬ orMsg e d = "" := by
  unfold orMsg
  by_cases he : e = "" <;> simp [he, hd]

/-- `fast` is true exactly when the raw `fast` query value is the string "1". -/
theorem fastOf_eq_true_iff (q : Query) : fastOf q = true ↔ q.fast = some "1" := by
  unfold fastOf orStr
  cases hq : q.fast with
  | none => simp
  | some s =>
    by_cases hs : s = "" <;> simp [hs, beq_iff_eq]

/-! ### Claim theorems -/

/-- C1: on an EVM chain with `fast` not set, if `approxTopHoldersPct`
throws, `/analyze` still answers HTTP 200 with `ok: true` and
`holders.top10Pct = null`; moreover the HTTP status does not depend on the
outcome of any guarded optional sub-analysis (only on the mandatory
collaborators). -/
theorem analyze_guarded_estimator_failure_keeps_200
    (chains : String → Option ChainConfig) (B : AnalyzeBehavior) (q : Query)
    (chain : ChainConfig) (meta : EvmMeta) (e : String)
    (hc : chains (chainKeyOf q) = some chain) (hk : chain.kind = "evm")
    (ht : ¬ tokenOf q = "") (hf : fastOf q = false)
    (hm : B.readMeta = Except.ok meta) (he : B.topPct = Except.error e) :
    (analyzeH chains B q).1.status = 200 ∧
    (analyzeH chains B q).1.body.ok = some true ∧
    ((analyzeH chains B q).1.body.facts).map Facts.top10Pct = some none ∧
    ∀ B2 : AnalyzeBehavior, B2.readMeta = B.readMeta →
      (analyzeH chains B2 q).1.status = (analyzeH chains B q).1.status := by
  refine ⟨?_, ?_, ?_, ?_⟩ <;> simp [analyzeH, hc, hk, hf, hm, he, ht]
  intro B2 h2
  simp [analyzeH, hc, hk, hf, h2, ht]

/-- C1 witness: the theorem applied to the concrete registry, a behavior
whose estimator throws, and the request `?chain=base&token=0xToken`. -/
theorem analyze_guarded_estimator_failure_keeps_200_witness :
    (analyzeH testChains aBehThrow qStd).1.status = 200 ∧
    (analyzeH testChains aBehThrow qStd).1.body.ok = some true ∧
    ((analyzeH testChains aBehThrow qStd).1.body.facts).map Facts.top10Pct = some none ∧
    ∀ B2 : AnalyzeBehavior, B2.readMeta = aBehThrow.readMeta →
      (analyzeH testChains B2 qStd).1.status = (analyzeH testChains aBehThrow qStd).1.status :=
  analyze_guarded_estimator_failure_keeps_200 testChains aBehThrow qStd
    ⟨"evm", "rpcB", "https://basescan.org", "K"⟩ metaOk "boom"
    (by decide) rfl (by decide) rfl rfl rfl

/-- C2 counterexample: the claim says the derived `windowBlocks` is never
negative, but the code applies no floor to `num(req.query.window, 200)`:
the request `?chain=base&token=0xToken&window=-5` produces a successful
response whose `windowBlocks` is `-5 < 0`. -/
theorem windowBlocks_negative_counterexample :
    (analyzeH testChains aBehThrow qNegWindow).1.status = 200 ∧
    (analyzeH testChains aBehThrow qNegWindow).1.body.windowBlocks
      = some (windowOf (JsNum.fin (-5))) ∧
    windowOf (JsNum.fin (-5)) < 0 := by
  refine ⟨rfl, rfl, by norm_num [windowOf, num]⟩

/-- C2 amended: the derived `windowBlocks` is never `NaN` — a non-finite
parse falls back to the default 200 — but it is not floored at 0 and not
rounded: a finite parsed value, including a negative or fractional one, is
used unchanged. -/
theorem windowBlocks_no_nan_passthrough :
    windowOf JsNum.notFinite = 200 ∧ ∀ x : ℚ, windowOf (JsNum.fin x) = x :=
  ⟨rfl, fun _ => rfl⟩

/-- C3: for every raw query input (equivalently, every `Number(·)` parse
outcome) the derived `span` lies in `[1,10]` and the derived `delay` is
non-negative; non-finite parses fall back to the defaults 5 and 500, and
`span=0` clamps to 1, `span=99` clamps to 10. -/
theorem span_delay_clamped (s d : JsNum) :
    1 ≤ spanOf s ∧ spanOf s ≤ 10 ∧ 0 ≤ delayOf d ∧
    spanOf JsNum.notFinite = 5 ∧ delayOf JsNum.notFinite = 500 ∧
    spanOf (JsNum.fin 0) = 1 ∧ spanOf (JsNum.fin 99) = 10 := by
  refine ⟨le_max_left 1 _, ?_, le_max_left 0 _, by decide, by decide,
    by decide, by decide⟩
  exact max_le (by norm_num) (min_le_right _ _)

/-- C4: `fast` is true exactly when the raw query value is the string "1";
with `fast=1` the concentration estimator is never invoked, the facts
carry `top10Pct = null`, and `mode = "fast"`; with any other `fast` value
`mode = "standard"`. -/
theorem analyze_fast_mode
    (chains : String → Option ChainConfig) (B : AnalyzeBehavior) (q : Query)
    (chain : ChainConfig) (meta : EvmMeta)
    (hc : chains (chainKeyOf q) = some chain) (hk : chain.kind = "evm")
    (ht : ¬ tokenOf q = "") (hm : B.readMeta = Except.ok meta) :
    (fastOf q = true ↔ q.fast = some "1") ∧
    (q.fast = some "1" →
      (analyzeH chains B q).2 = false ∧
      ((analyzeH chains B q).1.body.facts).map Facts.top10Pct = some none ∧
      (analyzeH chains B q).1.body.mode = some "fast") ∧
    (¬ q.fast = some "1" →
      (analyzeH chains B q).1.body.mode = some "standard") := by
  refine ⟨fastOf_eq_true_iff q, ?_, ?_⟩
  · intro h1
    have hf : fastOf q = true := (fastOf_eq_true_iff q).mpr h1
    simp [analyzeH, hc, hk, hf, hm, ht]
  · intro hne
    have hf : fastOf q = false := by
      cases hfq : fastOf q with
      | false => rfl
      | true => exact absurd ((fastOf_eq_true_iff q).mp hfq) hne
    simp [analyzeH, hc, hk, hf, hm, ht]

/-- C4 witness: the theorem applied to the request
`?chain=base&token=0xToken&fast=1` on the concrete registry. -/
theorem analyze_fast_mode_witness :
    (fastOf qFast = true ↔ qFast.fast = some "1") ∧
    (qFast.fast = some "1" →
      (analyzeH testChains aBehThrow qFast).2 = false ∧
      ((analyzeH testChains aBehThrow qFast).1.body.facts).map Facts.top10Pct = some none ∧
      (analyzeH testChains aBehThrow qFast).1.body.mode = some "fast") ∧
    (¬ qFast.fast = some "1" →
      (analyzeH testChains aBehThrow qFast).1.body.mode = some "standard") :=
  analyze_fast_mode testChains aBehThrow qFast
    ⟨"evm", "rpcB", "https://basescan.org", "K"⟩ metaOk
    (by decide) rfl (by decide) rfl

/-- C5 counterexample: the claim says every successful `/graph` response
echoes `windowBlocks/span/delay` for both chain kinds, but the Solana
branch responds `{ ok: true, ...g }` without them: a successful Solana
`/graph` request yields HTTP 200 with all three echo fields absent. -/
theorem graph_sol_window_echo_counterexample :
    (graphH testChains lkTrue gBehSol qSolGraph).1.status = 200 ∧
    (graphH testChains lkTrue gBehSol qSolGraph).1.body.ok = some true ∧
    (graphH testChains lkTrue gBehSol qSolGraph).1.body.windowBlocks = none ∧
    (graphH testChains lkTrue gBehSol qSolGraph).1.body.span = none ∧
    (graphH testChains lkTrue gBehSol qSolGraph).1.body.delay = none := by
  decide

/-- C5 amended: a successful EVM `/graph` response echoes the effective
`windowBlocks`, `span` and `delay`; a successful Solana `/graph` response
does not echo them — its body is `ok: true` plus the builder's graph
fields only. -/
theorem graph_echo_by_kind
    (chains : String → Option ChainConfig) (lk : String → Bool)
    (B : GraphBehavior) (q : Query) (chain : ChainConfig)
    (hc : chains (chainKeyOf q) = some chain)
    (ht : ¬ tokenOf q = "") (hcen : ¬ centerOf q = "") :
    (chain.kind = "evm" → ∀ meta, B.readMeta = Except.ok meta →
      (graphH chains lk B q).1.body.windowBlocks = some (windowOf q.window) ∧
      (graphH chains lk B q).1.body.span = some (spanOf q.span) ∧
      (graphH chains lk B q).1.body.delay = some (delayOf q.delay)) ∧
    (chain.kind = "solana" → lk (centerOf q) = true →
      ∀ g, B.solGraph = Except.ok g →
        (graphH chains lk B q).1.status = 200 ∧
        (graphH chains lk B q).1.body.ok = some true ∧
        (graphH chains lk B q).1.body.windowBlocks = none ∧
        (graphH chains lk B q).1.body.span = none ∧
        (graphH chains lk B q).1.body.delay = none) := by
  constructor
  · intro hk meta hm
    simp [graphH, hc, hk, ht, hcen, hm]
  · intro hk hlk g hg
    have hkevm : ¬ chain.kind = "evm" := by rw [hk]; decide
    simp [graphH, hc, hk, hkevm, ht, hcen, hlk, hg]

/-- C5 witness: the amended theorem applied to the concrete Solana `/graph`
request (and, via the first conjunct, the EVM case is available for the
same registry). -/
theorem graph_echo_by_kind_witness :
    (("solana" : String) = "evm" → ∀ meta, gBehSol.readMeta = Except.ok meta →
      (graphH testChains lkTrue gBehSol qSolGraph).1.body.windowBlocks
        = some (windowOf qSolGraph.window) ∧
      (graphH testChains lkTrue gBehSol qSolGraph).1.body.span
        = some (spanOf qSolGraph.span) ∧
      (graphH testChains lkTrue gBehSol qSolGraph).1.body.delay
        = some (delayOf qSolGraph.delay)) ∧
    (("solana" : String) = "solana" → lkTrue (centerOf qSolGraph) = true →
      ∀ g, gBehSol.solGraph = Except.ok g →
        (graphH testChains lkTrue gBehSol qSolGraph).1.status = 200 ∧
        (graphH testChains lkTrue gBehSol qSolGraph).1.body.ok = some true ∧
        (graphH testChains lkTrue gBehSol qSolGraph).1.body.windowBlocks = none ∧
        (graphH testChains lkTrue gBehSol qSolGraph).1.body.span = none ∧
        (graphH testChains lkTrue gBehSol qSolGraph).1.body.delay = none) :=
  graph_echo_by_kind testChains lkTrue gBehSol qSolGraph
    ⟨"solana", "rpcS", "https://solscan.io", ""⟩ (by decide) (by decide) (by decide)

/-- C6 counterexample: the claim says the Solana analyzer result is merged
with `ok: true`, so a successful analyzer call always yields a body with
`ok: true`; but the code returns `res.json(out)` with no merge: an
analyzer payload carrying `ok: false` is forwarded unchanged, so the
HTTP 200 response body does not contain `ok: true`. -/
theorem analyze_sol_ok_merge_counterexample :
    (analyzeH testChains aBehSolNotOk qSol).1.status = 200 ∧
    (analyzeH testChains aBehSolNotOk qSol).1.body.ok = some false ∧
    ¬ (analyzeH testChains aBehSolNotOk qSol).1.body.ok = some true := by
  decide

/-- C6 amended: on a chain of kind solana, a successful analyzer call makes
`/analyze` return the analyzer's payload verbatim as the HTTP 200 response
body, with no `ok: true` merged in by the handler: the body contains
`ok: true` exactly when the analyzer's own payload does. -/
theorem analyze_sol_verbatim_passthrough
    (chains : String → Option ChainConfig) (B : AnalyzeBehavior) (q : Query)
    (chain : ChainConfig) (out : Body)
    (hc : chains (chainKeyOf q) = some chain) (hk : chain.kind = "solana")
    (ht : ¬ tokenOf q = "") (hs : B.solAnalyze = Except.ok out) :
    (analyzeH chains B q).1 = ⟨200, out⟩ := by
  have hkevm : ¬ chain.kind = "evm" := by rw [hk]; decide
  simp [analyzeH, hc, hk, hkevm, ht, hs]

/-- C6 witness: the amended theorem applied to the concrete Solana
`/analyze` request whose analyzer succeeds with an `ok: true` payload. -/
theorem analyze_sol_verbatim_passthrough_witness :
    (analyzeH testChains aBehSolOk qSol).1 = ⟨200, solOutOk⟩ :=
  analyze_sol_verbatim_passthrough testChains aBehSolOk qSol
    ⟨"solana", "rpcS", "https://solscan.io", ""⟩ solOutOk
    (by decide) rfl (by decide) rfl

/-- C7 counterexample: the claim says all three endpoints answer
`{ok: false, error: "Unknown chain"}` for an absent chain key, but
`/jeeter` folds the unknown-chain case into its EVM-only check: the
request `?chain=nochain&token=0xToken` gets error "EVM only", not
"Unknown chain". -/
theorem jeeter_unknown_chain_counterexample :
    (jeeterH testChains jBehOk qNoChain).status = 400 ∧
    (jeeterH testChains jBehOk qNoChain).body.error = some "EVM only" ∧
    ¬ (jeeterH testChains jBehOk qNoChain).body.error = some "Unknown chain" := by
  decide

/-- C7 amended: a request whose chain key is absent from the registry gets
HTTP 400 with body `{ok: false, error: "Unknown chain"}` from `/analyze`
and `/graph`, while `/jeeter` answers HTTP 400 with
`{ok: false, error: "EVM only"}`. -/
theorem unknown_chain_error_by_endpoint
    (chains : String → Option ChainConfig) (lk : String → Bool)
    (aB : AnalyzeBehavior) (gB : GraphBehavior) (jB : JeeterBehavior)
    (q : Query) (hc : chains (chainKeyOf q) = none) :
    (analyzeH chains aB q).1 = ⟨400, errBody "Unknown chain"⟩ ∧
    (graphH chains lk gB q).1 = ⟨400, errBody "Unknown chain"⟩ ∧
    jeeterH chains jB q = ⟨400, errBody "EVM only"⟩ := by
  refine ⟨?_, ?_, ?_⟩ <;> simp [analyzeH, graphH, jeeterH, hc]

/-- C7 witness: the amended theorem applied to the concrete request with
chain key "nochain", absent from the registry. -/
theorem unknown_chain_error_by_endpoint_witness :
    (analyzeH testChains aBehThrow qNoChain).1 = ⟨400, errBody "Unknown chain"⟩ ∧
    (graphH testChains lkTrue gBehSol qNoChain).1 = ⟨400, errBody "Unknown chain"⟩ ∧
    jeeterH testChains jBehOk qNoChain = ⟨400, errBody "EVM only"⟩ :=
  unknown_chain_error_by_endpoint testChains lkTrue aBehThrow gBehSol jBehOk
    qNoChain (by decide)

/-- C8: on a chain of kind solana, a `/graph` request whose normalized
`center` fails the address-shape predicate is rejected with HTTP 400 and
error "Bad Sol address", and `buildSolGraph` is never invoked (the flag in
the second component stays `false`). -/
theorem graph_sol_bad_address_rejected_before_build
    (chains : String → Option ChainConfig) (lk : String → Bool)
    (B : GraphBehavior) (q : Query) (chain : ChainConfig)
    (hc : chains (chainKeyOf q) = some chain) (hk : chain.kind = "solana")
    (ht : ¬ tokenOf q = "") (hcen : ¬ centerOf q = "")
    (hbad : lk (centerOf q) = false) :
    graphH chains lk B q = (⟨400, errBody "Bad Sol address"⟩, false) := by
  have hkevm : ¬ chain.kind = "evm" := by rw [hk]; decide
  simp [graphH, hc, hk, hkevm, ht, hcen, hbad]

/-- C8 witness: the theorem applied to a 32-character-minimum shape
predicate and the request `?chain=sol&token=MintAddr&center=not-an-address`. -/
theorem graph_sol_bad_address_rejected_before_build_witness :
    graphH testChains lkLen32 gBehSol qSolGraphBad
      = (⟨400, errBody "Bad Sol address"⟩, false) :=
  graph_sol_bad_address_rejected_before_build testChains lkLen32 gBehSol
    qSolGraphBad ⟨"solana", "rpcS", "https://solscan.io", ""⟩
    (by decide) rfl (by decide) (by decide) (by decide)

/-- C9 counterexample: the claim asserts every `ok: false` body comes with
HTTP status 400 or 500, but the Solana `/analyze` branch forwards a
resolved analyzer payload verbatim (`res.json(out)`, line 106): an
analyzer that resolves with an `ok: false` envelope reaches the client as
an HTTP 200 response whose body has `ok: false`. -/
theorem error_envelope_solana_counterexample :
    (analyzeH testChains aBehSolNotOk qSol).1.body.ok = some false ∧
    (analyzeH testChains aBehSolNotOk qSol).1.status = 200 ∧
    ¬ ((analyzeH testChains aBehSolNotOk qSol).1.status = 400 ∨
        (analyzeH testChains aBehSolNotOk qSol).1.status = 500) := by
  decide

/-- C9 amended: every failure response the orchestrator itself constructs
is exactly `{ok: false, error: msg}` with a non-empty message, at HTTP
status 400 — with one of the fixed validation messages — or 500 — exactly
when a mandatory collaborator threw.  The single exception is the Solana
`/analyze` pass-through: a body with `ok: false` can also arise at HTTP
200, in which case it is the analyzer payload forwarded verbatim. -/
theorem error_envelope_with_passthrough
    (chains : String → Option ChainConfig) (lk : String → Bool)
    (aB : AnalyzeBehavior) (gB : GraphBehavior) (jB : JeeterBehavior)
    (q : Query) :
    ((analyzeH chains aB q).1.body.ok = some false →
      (∃ msg, ¬ msg = "" ∧ (analyzeH chains aB q).1.body = errBody msg ∧
        (((analyzeH chains aB q).1.status = 400 ∧
            (msg = "Unknown chain" ∨ msg = "Missing token/mint" ∨
              msg = "Unsupported chain kind")) ∨
          ((analyzeH chains aB q).1.status = 500 ∧
            ((∃ e, aB.readMeta = Except.error e) ∨
              (∃ e, aB.solAnalyze = Except.error e))))) ∨
      ((analyzeH chains aB q).1.status = 200 ∧
        ∃ out, aB.solAnalyze = Except.ok out ∧
          (analyzeH chains aB q).1.body = out)) ∧
    ((graphH chains lk gB q).1.body.ok = some false →
      ∃ msg, ¬ msg = "" ∧ (graphH chains lk gB q).1.body = errBody msg ∧
        (((graphH chains lk gB q).1.status = 400 ∧
            (msg = "Unknown chain" ∨ msg = "Missing token/center" ∨
              msg = "Bad Sol address" ∨ msg = "Unsupported chain kind")) ∨
          ((graphH chains lk gB q).1.status = 500 ∧
            ((∃ e, gB.readMeta = Except.error e) ∨
              (∃ e, gB.solGraph = Except.error e))))) ∧
    ((jeeterH chains jB q).body.ok = some false →
      ∃ msg, ¬ msg = "" ∧ (jeeterH chains jB q).body = errBody msg ∧
        (((jeeterH chains jB q).status = 400 ∧ msg = "EVM only") ∨
          ((jeeterH chains jB q).status = 500 ∧
            ∃ e, jB.readMeta = Except.error e))) := by
  refine ⟨?_, ?_, ?_⟩
  · intro hfalse
    rcases hcc : chains (chainKeyOf q) with _ | chain
    · refine Or.inl ⟨"Unknown chain", by decide, ?_, Or.inl ⟨?_, Or.inl rfl⟩⟩ <;>
        simp [analyzeH, hcc]
    · by_cases htok : tokenOf q = ""
      · refine Or.inl ⟨"Missing token/mint", by decide, ?_,
          Or.inl ⟨?_, Or.inr (Or.inl rfl)⟩⟩ <;> simp [analyzeH, hcc, htok]
      · by_cases hevm : chain.kind = "evm"
        · rcases hrm : aB.readMeta with e | meta
          · refine Or.inl ⟨orMsg e "Analyze failed",
              orMsg_ne_empty e "Analyze failed" (by decide), ?_,
              Or.inr ⟨?_, Or.inl ⟨e, rfl⟩⟩⟩ <;>
              simp [analyzeH, hcc, htok, hevm, hrm]
          · simp [analyzeH, hcc, htok, hevm, hrm] at hfalse
        · by_cases hsolk : chain.kind = "solana"
          · rcases hsa : aB.solAnalyze with e | out
            · refine Or.inl ⟨orMsg e "Analyze failed",
                orMsg_ne_empty e "Analyze failed" (by decide), ?_,
                Or.inr ⟨?_, Or.inr ⟨e, rfl⟩⟩⟩ <;>
                simp [analyzeH, hcc, htok, hevm, hsolk, hsa]
            · refine Or.inr ⟨?_, out, rfl, ?_⟩ <;>
                simp [analyzeH, hcc, htok, hevm, hsolk, hsa]
          · refine Or.inl ⟨"Unsupported chain kind", by decide, ?_,
              Or.inl ⟨?_, Or.inr (Or.inr rfl)⟩⟩ <;>
              simp [analyzeH, hcc, htok, hevm, hsolk]
  · intro hfalse
    rcases hcc : chains (chainKeyOf q) with _ | chain
    · refine ⟨"Unknown chain", by decide, ?_, Or.inl ⟨?_, Or.inl rfl⟩⟩ <;>
        simp [graphH, hcc]
    · by_cases htok : tokenOf q = ""
      · refine ⟨"Missing token/center", by decide, ?_,
          Or.inl ⟨?_, Or.inr (Or.inl rfl)⟩⟩ <;> simp [graphH, hcc, htok]
      · by_cases hcen : centerOf q = ""
        · refine ⟨"Missing token/center", by decide, ?_,
            Or.inl ⟨?_, Or.inr (Or.inl rfl)⟩⟩ <;> simp [graphH, hcc, htok, hcen]
        · by_cases hevm : chain.kind = "evm"
          · rcases hrm : gB.readMeta with e | meta
            · refine ⟨orMsg e "Graph failed",
                orMsg_ne_empty e "Graph failed" (by decide), ?_,
                Or.inr ⟨?_, Or.inl ⟨e, rfl⟩⟩⟩ <;>
                simp [graphH, hcc, htok, hcen, hevm, hrm]
            · simp [graphH, hcc, htok, hcen, hevm, hrm] at hfalse
          · by_cases hsolk : chain.kind = "solana"
            · cases hlk : lk (centerOf q) with
              | false =>
                refine ⟨"Bad Sol address", by decide, ?_,
                  Or.inl ⟨?_, Or.inr (Or.inr (Or.inl rfl))⟩⟩ <;>
                  simp [graphH, hcc, htok, hcen, hevm, hsolk, hlk]
              | true =>
                rcases hsg : gB.solGraph with e | g
                · refine ⟨orMsg e "Graph failed",
                    orMsg_ne_empty e "Graph failed" (by decide), ?_,
                    Or.inr ⟨?_, Or.inr ⟨e, rfl⟩⟩⟩ <;>
                    simp [graphH, hcc, htok, hcen, hevm, hsolk, hlk, hsg]
                · simp [graphH, hcc, htok, hcen, hevm, hsolk, hlk, hsg] at hfalse
            · refine ⟨"Unsupported chain kind", by decide, ?_,
                Or.inl ⟨?_, Or.inr (Or.inr (Or.inr rfl))⟩⟩ <;>
                simp [graphH, hcc, htok, hcen, hevm, hsolk]
  · intro hfalse
    rcases hcc : chains (chainKeyOf q) with _ | chain
    · refine ⟨"EVM only", by decide, ?_, Or.inl ⟨?_, rfl⟩⟩ <;>
        simp [jeeterH, hcc]
    · by_cases hevm : chain.kind = "evm"
      · rcases hrm : jB.readMeta with e | meta
        · refine ⟨orMsg e "Jeeter failed",
            orMsg_ne_empty e "Jeeter failed" (by decide), ?_,
            Or.inr ⟨?_, ⟨e, rfl⟩⟩⟩ <;> simp [jeeterH, hcc, hevm, hrm]
        · simp [jeeterH, hcc, hevm, hrm] at hfalse
      · refine ⟨"EVM only", by decide, ?_, Or.inl ⟨?_, rfl⟩⟩ <;>
          simp [jeeterH, hcc, hevm]

/-- C9 witness: the `/analyze` conjunct of the amended theorem at the
concrete Solana request whose analyzer resolves with an `ok: false`
payload, exercising the pass-through disjunct. -/
theorem error_envelope_with_passthrough_witness :
    (∃ msg, ¬ msg = "" ∧ (analyzeH testChains aBehSolNotOk qSol).1.body = errBody msg ∧
        (((analyzeH testChains aBehSolNotOk qSol).1.status = 400 ∧
            (msg = "Unknown chain" ∨ msg = "Missing token/mint" ∨
              msg = "Unsupported chain kind")) ∨
          ((analyzeH testChains aBehSolNotOk qSol).1.status = 500 ∧
            ((∃ e, aBehSolNotOk.readMeta = Except.error e) ∨
              (∃ e, aBehSolNotOk.solAnalyze = Except.error e))))) ∨
    ((analyzeH testChains aBehSolNotOk qSol).1.status = 200 ∧
      ∃ out, aBehSolNotOk.solAnalyze = Except.ok out ∧
        (analyzeH testChains aBehSolNotOk qSol).1.body = out) :=
  (error_envelope_with_passthrough testChains lkTrue aBehSolNotOk gBehSol
    jBehOk qSol).1 (by decide)

/-- C10: the unknown-chain check precedes the missing-identifier check in
`/analyze` and `/graph`: an unregistered chain key with empty token and
center yields 400 "Unknown chain", never "Missing token/mint" or
"Missing token/center". -/
theorem unknown_chain_precedes_missing_token
    (chains : String → Option ChainConfig) (lk : String → Bool)
    (aB : AnalyzeBehavior) (gB : GraphBehavior) (q : Query)
    (hc : chains (chainKeyOf q) = none)
    (_ht : tokenOf q = "") (_hcen : centerOf q = "") :
    (analyzeH chains aB q).1 = ⟨400, errBody "Unknown chain"⟩ ∧
    (graphH chains lk gB q).1 = ⟨400, errBody "Unknown chain"⟩ ∧
    ¬ (analyzeH chains aB q).1.body.error = some "Missing token/mint" ∧
    ¬ (graphH chains lk gB q).1.body.error = some "Missing token/center" := by
  refine ⟨?_, ?_, ?_, ?_⟩ <;> simp [analyzeH, graphH, hc, errBody]

/-- C10 witness: the theorem applied to the concrete request
`?chain=nochain` with no token and no center. -/
theorem unknown_chain_precedes_missing_token_witness :
    (analyzeH testChains aBehThrow qNoChainNoToken).1
        = ⟨400, errBody "Unknown chain"⟩ ∧
    (graphH testChains lkTrue gBehSol qNoChainNoToken).1
        = ⟨400, errBody "Unknown chain"⟩ ∧
    ¬ (analyzeH testChains aBehThrow qNoChainNoToken).1.body.error
        = some "Missing token/mint" ∧
    ¬ (graphH testChains lkTrue gBehSol qNoChainNoToken).1.body.error
        = some "Missing token/center" :=
  unknown_chain_precedes_missing_token testChains lkTrue aBehThrow gBehSol
    qNoChainNoToken (by decide) (by decide) (by decide)
